import Mathlib

/-!
# Verification of the mcp-christensen pattern-matching and scoring core

Shallow embedding of the decision-logic core of the repository:

* `matchToCaseStudies` (src/frameworks/disruption.ts) — the SignalMatcher:
  ranks the static `CANONICAL_CASES` library against caller observations.
* `calculateFidelityScore` (src/validation/fidelity-check.ts) — the
  FidelityScorer: scores a text blob against the marker catalog
  (`POSITIVE_PATTERNS` / `NEGATIVE_PATTERNS`).
* `getCaseStudyDetail` (src/tools/case-study.ts) — pattern-record lookup.

JavaScript strings are modelled as Lean `String` (ASCII-faithful:
`toLowerCase` is modelled by `Char.toLower`, which agrees with JS on the
ASCII range that all library data and pattern literals use).  The JS
regular expressions of the marker catalog are transliterated into a small
regex AST (`Reg`) whose matcher `amatch` enumerates candidate match
lengths in JS backtracking preference order (greedy quantifiers, ordered
alternation); `\b` word boundaries and the one lookaround pattern are
handled by the search drivers.
-/

namespace Christensen

/-! ## JavaScript string primitives -/

/-- JS `String.prototype.toLowerCase()` restricted to ASCII
(`Char.toLower` lower-cases exactly `A`–`Z`). -/
def jsLower (s : String) : String :=
  ⟨s.data.map Char.toLower⟩

/-- Substring test on char lists: `needle` occurs contiguously in `hay`.
This is JS `hay.includes(needle)`. -/
def containsSeq (hay needle : List Char) : Bool :=
  match hay with
  | [] => needle.isEmpty
  | c :: t => needle.isPrefixOf (c :: t) || containsSeq t needle

/-- JS `hay.includes(needle)`. -/
def jsIncludes (hay needle : String) : Bool :=
  containsSeq hay.data needle.data

/-- JS `s.slice(0, 20)`. -/
def jsSlice20 (s : String) : String :=
  ⟨s.data.take 20⟩

/-- JS word character for `\b`: `[A-Za-z0-9_]`. -/
def jsWordChar (c : Char) : Bool :=
  (('a' ≤ c) && (c ≤ 'z')) || (('A' ≤ c) && (c ≤ 'Z')) ||
  (('0' ≤ c) && (c ≤ '9')) || (c = '_')

/-- JS `\\s` (WhiteSpace and LineTerminator). -/
def jsWhitespaceChar (c : Char) : Bool :=
  (c = ' ') || (c = '\t') || (c = '\n') || (c = '\r') ||
  (c = '\x0b') || (c = '\x0c') || (c = '\u00a0') || (c = '\u1680') ||
  (('\u2000' ≤ c) && (c ≤ '\u200a')) || (c = '\u2028') || (c = '\u2029') ||
  (c = '\u202f') || (c = '\u205f') || (c = '\u3000') || (c = '\ufeff')

/-- JS `.` (any char except a line terminator; no `s` flag is used). -/
def jsDotChar (c : Char) : Bool :=
  !((c = '\n') || (c = '\r') || (c = '\u2028') || (c = '\u2029'))

/-- JS `String.prototype.trim()`: strip `\s` from both ends. -/
def jsTrim (s : String) : String :=
  ⟨((s.data.dropWhile jsWhitespaceChar).reverse.dropWhile jsWhitespaceChar).reverse⟩

/-! ## Case-study pattern matching (src/frameworks/disruption.ts) -/

/-- `ConfidenceLevel` from src/frameworks/types.ts. -/
inductive ConfidenceLevel where
  | high
  | medium
  | low
  | uncertain
deriving DecidableEq

/-- `CaseStudyPattern` interface from src/frameworks/disruption.ts. -/
structure CaseStudyPattern where
  name : String
  pattern : String
  story : String
  signals : List String
  lessonsForToday : String
deriving DecidableEq

/-- `CaseStudyReference` interface from src/frameworks/types.ts. -/
structure CaseStudyReference where
  name : String
  pattern : String
  relevance : String
  matchStrength : ConfidenceLevel
deriving DecidableEq

/-- The `CANONICAL_CASES` record (an insertion-ordered JS object, modelled
as an association list).  It has exactly four entries; the `milkshake`
case accepted by the tool schema is absent. -/
def CANONICAL_CASES : List (String × CaseStudyPattern) := [
  ("steel_minimills", {
    name := "Steel Mini-Mills",
    pattern := "Low-end disruption with asymmetric motivation",
    story := "Integrated steel mills (US Steel, Bethlehem) dominated the industry but\nhad high fixed costs. Mini-mills (Nucor) entered making rebar - the\nlowest-margin product. Integrated mills were RELIEVED to exit rebar.\n\nMini-mills improved and moved to angle iron. Integrated mills were again\nrelieved. Then structural steel. Then sheet steel. At each tier, the\nrational response for integrated mills was to retreat upmarket.\n\nBy the time mini-mills threatened their core products, integrated mills\nhad neither the cost structure nor the capabilities to respond.",
    signals := [
      "Incumbent has high fixed-cost structure",
      "Low-end segments are unattractive margin-wise",
      "Entrant has fundamentally different cost structure",
      "Entrant quality improves over time",
      "Incumbent 'rationally' cedes each tier"],
    lessonsForToday := "Watch for entrants that incumbents are happy to ignore. Their improvement trajectory may lead straight to your core." }),
  ("disk_drives", {
    name := "Disk Drive Generations",
    pattern := "New-market disruption with different value network",
    story := "Each generation of smaller disk drives was 'worse' by existing metrics\n(capacity, cost per megabyte) but enabled entirely new applications.\n\n14\" drives → mainframes\n8\" drives → minicomputers\n5.25\" drives → desktop PCs\n3.5\" drives → laptops\n2.5\" and smaller → portable devices\n\nEach time, incumbents saw the new format as inferior. Their customers\ndidn't want smaller drives with less capacity. But new customers in\nnew applications valued portability, power efficiency, and form factor\nover raw capacity.",
    signals := [
      "New form factor or approach",
      "Different performance dimensions valued",
      "Enables new use cases existing solutions can't serve",
      "Existing customers explicitly don't want it",
      "New value network with different profit formula"],
    lessonsForToday := "Your best customers telling you they don't want something may be a signal it will disrupt you, not a signal it's irrelevant." }),
  ("honda_motorcycles", {
    name := "Honda Motorcycles in America",
    pattern := "Emergent strategy through market learning",
    story := "Honda came to America in 1959 planning to sell large motorcycles to\ncompete with Harley-Davidson. Sales were poor - Americans saw Japanese\nbikes as inferior for highway riding.\n\nHonda executives rode small 50cc Supercubs around Los Angeles for\npersonal errands. People kept asking where to buy them. Sears wanted\nto carry them. Honda initially resisted - these weren't 'real' motorcycles.\n\nEventually they recognized the market was teaching them their strategy.\nThe Supercub created a new market of people who would never buy a\nHarley - and Honda built capabilities that later let them move upmarket.",
    signals := [
      "Initial strategy hypothesis doesn't match market reality",
      "Unexpected customer segment emerges",
      "Product finds use cases different from intended",
      "Willingness to learn and adapt",
      "Creates new category rather than competing in existing one"],
    lessonsForToday := "The market often knows your strategy better than you do. Pay attention to who actually buys - especially unexpected customers." }),
  ("intel_microprocessors", {
    name := "Intel's Pivot to Microprocessors",
    pattern := "Capability migration through process investment",
    story := "Intel dominated memory chips in the 1970s but faced brutal competition\nfrom Japanese manufacturers who had lower costs and higher quality.\nAndy Grove and Gordon Moore recognized memory was becoming a commodity.\n\nIntel survived by migrating to microprocessors - not because they had\nunique resources (Japanese firms could acquire those) but because their\nPROCESSES for chip design and manufacturing transferred to processors.\n\nThe key insight: Resources are acquirable. Processes are developed\nover years and can't be bought. Intel's survival came from recognizing\nwhich of their capabilities (processes) were transferable.",
    signals := [
      "Core business facing commoditization or decline",
      "Adjacent opportunity emerging",
      "Process capabilities (not just resources) are transferable",
      "Requires fundamental priority shift",
      "New market values same underlying capabilities differently"],
    lessonsForToday := "When your market is dying, ask what processes you've built that could transfer to new opportunities. Don't just count your resources." })]

/-- The inner `if` condition of `matchToCaseStudies`:
`userLower.includes(caseSignal.toLowerCase().slice(0, 20)) ||
 caseSignal.toLowerCase().includes(userLower.slice(0, 20))`.
Note: the source lower-cases both strings but trims neither. -/
def signalTestMatch (userLower caseSignal : String) : Bool :=
  jsIncludes userLower (jsSlice20 (jsLower caseSignal)) ||
  jsIncludes (jsLower caseSignal) (jsSlice20 userLower)

/-- The inner `for (const caseSignal of caseStudy.signals)` loop of
`matchToCaseStudies` with its `break`: the first descriptor matching the
given (already lower-cased) observation, if any. -/
def firstMatchingSignal (userLower : String) (caseSignals : List String) : Option String :=
  caseSignals.find? (fun caseSignal => signalTestMatch userLower caseSignal)

/-- The outer `for (const userSignal of signals)` loop of
`matchToCaseStudies`: each observation pushes (at most) the first
descriptor it matches; `matchCount` is the length of this list. -/
def matchedSignalsFor (signals : List String) (caseSignals : List String) : List String :=
  signals.filterMap (fun userSignal => firstMatchingSignal (jsLower userSignal) caseSignals)

/-- `matchCount >= 3 ? "high" : matchCount >= 2 ? "medium" : "low"`. -/
def matchStrengthFor (matchCount : Nat) : ConfidenceLevel :=
  if 3 ≤ matchCount then .high else if 2 ≤ matchCount then .medium else .low

/-- The `order` record used by the sort comparator of `matchToCaseStudies`. -/
def strengthOrder : ConfidenceLevel → Nat
  | .high => 0
  | .medium => 1
  | .low => 2
  | .uncertain => 3

/-- The comparator of `matchToCaseStudies`
(`order[a.matchStrength] - order[b.matchStrength]`), as the preorder it
sorts by. -/
def refLE (a b : CaseStudyReference) : Prop :=
  strengthOrder a.matchStrength ≤ strengthOrder b.matchStrength

instance : DecidableRel refLE := fun a b =>
  Nat.decLe (strengthOrder a.matchStrength) (strengthOrder b.matchStrength)

/-- The `matches` array built by `matchToCaseStudies` before sorting:
one `CaseStudyReference` per record of `CANONICAL_CASES` (in declaration
order) whose `matchCount` is positive. -/
def unsortedMatches (signals : List String) : List CaseStudyReference :=
  CANONICAL_CASES.filterMap (fun entry =>
    let matchedSignals := matchedSignalsFor signals entry.2.signals
    let matchCount := matchedSignals.length
    if 0 < matchCount then
      some { name := entry.2.name,
             pattern := entry.2.pattern,
             relevance := "Matches " ++ toString matchCount ++ " signals: "
                           ++ String.intercalate ("; ") matchedSignals,
             matchStrength := matchStrengthFor matchCount }
    else none)

/-- `matchToCaseStudies` from src/frameworks/disruption.ts.  JS
`Array.prototype.sort` is a stable sort (ES2019), modelled by insertion
sort on the comparator's preorder. -/
def matchToCaseStudies (signals : List String) : List CaseStudyReference :=
  (unsortedMatches signals).insertionSort refLE

/-! ## A small JS regex engine

The marker-catalog regexes of src/validation/fidelity-check.ts use only:
literals, single-character classes, ordered alternation `(?:a|b)`, greedy
`?` on literals/classes/groups, greedy `+`/`*` on single-character
classes, `\b`, the `i` flag, and (in one pattern) negative lookbehind and
lookahead.  `Reg` covers everything except `\b` and lookaround, which the
search drivers below handle.  `amatch r w` returns the candidate lengths
of prefixes of `w` matching `r`, in JS backtracking preference order
(greedy quantifiers longest-first, alternatives left-to-right). -/

inductive Reg where
  | eps : Reg
  | lit : List Char → Reg
  | cls : (Char → Bool) → Reg
  | seq : Reg → Reg → Reg
  | alt : Reg → Reg → Reg
  | opt : Reg → Reg
  | starCls : (Char → Bool) → Reg
  | plusCls : (Char → Bool) → Reg

/-- `[n, n-1, ..., 0]`: greedy preference order for `*` on a class whose
maximal run has length `n`. -/
def descRange : Nat → List Nat
  | 0 => [0]
  | n + 1 => (n + 1) :: descRange n

/-- Candidate consumed lengths at the current position, in JS preference
order. -/
def amatch : Reg → List Char → List Nat
  | .eps, _ => [0]
  | .lit cs, w => if cs.isPrefixOf w then [cs.length] else []
  | .cls _, [] => []
  | .cls p, c :: _ => if p c then [1] else []
  | .seq a b, w => (amatch a w).flatMap (fun k => (amatch b (w.drop k)).map (fun m => k + m))
  | .alt a b, w => amatch a w ++ amatch b w
  | .opt a, w => amatch a w ++ [0]
  | .starCls p, w => descRange (w.takeWhile p).length
  | .plusCls p, w =>
    match (w.takeWhile p).length with
    | 0 => []
    | n + 1 => (descRange (n + 1)).dropLast

/-- Shorthand for a regex literal (already lower-case for `i` patterns). -/
def rLit (s : String) : Reg := .lit s.data

/-- Declarative language semantics of `Reg`: `Lang r u` holds when the
whole word `u` matches `r`.  Used to characterize what `amatch` can
consume. -/
inductive Lang : Reg → List Char → Prop where
  | eps : Lang .eps []
  | lit (cs : List Char) : Lang (.lit cs) cs
  | cls {p : Char → Bool} {c : Char} : p c = true → Lang (.cls p) [c]
  | seq {a b : Reg} {u v : List Char} : Lang a u → Lang b v → Lang (.seq a b) (u ++ v)
  | altL {a b : Reg} {u : List Char} : Lang a u → Lang (.alt a b) u
  | altR {a b : Reg} {u : List Char} : Lang b u → Lang (.alt a b) u
  | optSome {a : Reg} {u : List Char} : Lang a u → Lang (.opt a) u
  | optNone {a : Reg} : Lang (.opt a) []
  | starCls {p : Char → Bool} {u : List Char} :
      (∀ c ∈ u, p c = true) → Lang (.starCls p) u
  | plusCls {p : Char → Bool} {u : List Char} :
      u ≠ [] → (∀ c ∈ u, p c = true) → Lang (.plusCls p) u

/-- A transliterated JS regex: core pattern plus leading/trailing `\b`. -/
structure JsPattern where
  core : Reg
  wbStart : Bool
  wbEnd : Bool

/-- Is the char at index `i` a word char (out of range counts as no)? -/
def wordAt (w : List Char) (i : Nat) : Bool :=
  match w[i]? with
  | some c => jsWordChar c
  | none => false

/-- JS `\b` holds at index `i` (0 ≤ i ≤ length). -/
def boundaryAt (w : List Char) (i : Nat) : Bool :=
  (match i with
   | 0 => false
   | j + 1 => wordAt w j) != wordAt w i

/-- Try to match `p` anchored at index `i` of `low`; returns the consumed
length of the first candidate (JS preference order) whose end position
satisfies the trailing `\b`, if the leading `\b` holds. -/
def tryAt (p : JsPattern) (low : List Char) (i : Nat) : Option Nat :=
  if p.wbStart && !boundaryAt low i then none
  else (amatch p.core (low.drop i)).find? (fun k => !p.wbEnd || boundaryAt low (i + k))

/-- JS `text.match(re)` for a case-insensitive pattern: leftmost match,
returning the matched slice of the original text (`match[0]`). -/
def jsMatch (p : JsPattern) (text : String) : Option String :=
  let orig := text.data
  let low := orig.map Char.toLower
  ((List.range (orig.length + 1)).findSome? (fun i =>
    (tryAt p low i).map (fun k => (i, k)))).map
    (fun pr => ⟨(orig.drop pr.1).take pr.2⟩)

/-- JS `re.test(text)` for a case-insensitive pattern. -/
def jsTest (p : JsPattern) (text : String) : Bool :=
  (jsMatch p text).isSome

/-! ## The marker catalog (src/validation/fidelity-check.ts)

Each JS regex of `POSITIVE_PATTERNS` / `NEGATIVE_PATTERNS` is
transliterated below; literals are written lower-case because every
pattern except `/\b100%\b/` (which has no cased character) carries the
`i` flag and is matched against the lower-cased text. -/

/-- Sequence of regex parts. -/
def rSeq (l : List Reg) : Reg := l.foldr Reg.seq Reg.eps

/-- A pattern without word-boundary anchors. -/
def rxPlain (r : Reg) : JsPattern := { core := r, wbStart := false, wbEnd := false }

/-- A pattern of the form `/\b...\b/`. -/
def rxWb (r : Reg) : JsPattern := { core := r, wbStart := true, wbEnd := true }

/-- The class `[- ]`. -/
def dashSpace (c : Char) : Bool := (c = '-') || (c = ' ')

/-- The class `[,\s]`. -/
def commaOrWs (c : Char) : Bool := (c = ',') || jsWhitespaceChar c

/-- The class `\d`. -/
def digitChar (c : Char) : Bool := ('0' ≤ c) && (c ≤ '9')

/-- The class `[^.]`. -/
def nonDotChar (c : Char) : Bool := c != '.'

/-- `/jobs?[- ]to[- ]be[- ]done/i` -/
def reJobsToBeDone : JsPattern := rxPlain (rSeq [rLit ("job"), .opt (rLit ("s")),
  .cls dashSpace, rLit ("to"), .cls dashSpace, rLit ("be"), .cls dashSpace, rLit ("done")])

/-- `/jtbd/i` -/
def reJtbd : JsPattern := rxPlain (rLit ("jtbd"))

/-- `/disruption/i` -/
def reDisruption : JsPattern := rxPlain (rLit ("disruption"))

/-- `/disruptive/i` -/
def reDisruptive : JsPattern := rxPlain (rLit ("disruptive"))

/-- `/sustaining/i` -/
def reSustaining : JsPattern := rxPlain (rLit ("sustaining"))

/-- `/capabilities[,\s]+processes[,\s]+(?:and\s+)?priorities/i` -/
def reCppPhrase : JsPattern := rxPlain (rSeq [rLit ("capabilities"), .plusCls commaOrWs,
  rLit ("processes"), .plusCls commaOrWs,
  .opt (rSeq [rLit ("and"), .plusCls jsWhitespaceChar]), rLit ("priorities")])

/-- `/cpp/i` -/
def reCpp : JsPattern := rxPlain (rLit ("cpp"))

/-- `/resource dependence/i` -/
def reResourceDependence : JsPattern := rxPlain (rLit ("resource dependence"))

/-- `/what job/i` -/
def reWhatJob : JsPattern := rxPlain (rLit ("what job"))

/-- `/hiring.*(?:product|solution|this)/i` -/
def reHiring : JsPattern := rxPlain (rSeq [rLit ("hiring"), .starCls jsDotChar,
  .alt (rLit ("product")) (.alt (rLit ("solution")) (rLit ("this")))])

/-- `/functional.*emotional.*social/i` -/
def reFunctionalEmotionalSocial : JsPattern := rxPlain (rSeq [rLit ("functional"),
  .starCls jsDotChar, rLit ("emotional"), .starCls jsDotChar, rLit ("social")])

/-- `/circumstance/i` -/
def reCircumstance : JsPattern := rxPlain (rLit ("circumstance"))

/-- `/what are they firing/i` -/
def reWhatAreTheyFiring : JsPattern := rxPlain (rLit ("what are they firing"))

/-- `/theory (?:would |might )?(?:suggest|predict)/i` -/
def reTheoryPredicts : JsPattern := rxPlain (rSeq [rLit ("theory "),
  .opt (.alt (rLit ("would ")) (rLit ("might "))),
  .alt (rLit ("suggest")) (rLit ("predict"))])

/-- `/I'?ve seen this pattern/i` -/
def reSeenThisPattern : JsPattern := rxPlain (rSeq [rLit ("i"), .opt (rLit ("'")),
  rLit ("ve seen this pattern")])

/-- `/help me understand/i` -/
def reHelpMeUnderstand : JsPattern := rxPlain (rLit ("help me understand"))

/-- `/the question (?:is|might be)/i` -/
def reTheQuestionIs : JsPattern := rxPlain (rSeq [rLit ("the question "),
  .alt (rLit ("is")) (rLit ("might be"))])

/-- `/appropriate uncertainty/i` -/
def reAppropriateUncertainty : JsPattern := rxPlain (rLit ("appropriate uncertainty"))

/-- `/might be different/i` -/
def reMightBeDifferent : JsPattern := rxPlain (rLit ("might be different"))

/-- `/depends on/i` -/
def reDependsOn : JsPattern := rxPlain (rLit ("depends on"))

/-- `/mini[- ]?mills?/i` -/
def reMiniMills : JsPattern := rxPlain (rSeq [rLit ("mini"), .opt (.cls dashSpace),
  rLit ("mill"), .opt (rLit ("s"))])

/-- `/steel/i` -/
def reSteel : JsPattern := rxPlain (rLit ("steel"))

/-- `/disk drive/i` -/
def reDiskDrive : JsPattern := rxPlain (rLit ("disk drive"))

/-- `/milkshake/i` -/
def reMilkshake : JsPattern := rxPlain (rLit ("milkshake"))

/-- `/honda/i` -/
def reHonda : JsPattern := rxPlain (rLit ("honda"))

/-- `/intel/i` -/
def reIntel : JsPattern := rxPlain (rLit ("intel"))

/-- `/microprocessor/i` -/
def reMicroprocessor : JsPattern := rxPlain (rLit ("microprocessor"))

/-- `/resource provider/i` -/
def reResourceProvider : JsPattern := rxPlain (rLit ("resource provider"))

/-- `/business model/i` -/
def reBusinessModel : JsPattern := rxPlain (rLit ("business model"))

/-- `/priorit(?:y|ies)/i` -/
def rePriorities : JsPattern := rxPlain (rSeq [rLit ("priorit"),
  .alt (rLit ("y")) (rLit ("ies"))])

/-- `/process(?:es)?/i` -/
def reProcesses : JsPattern := rxPlain (rSeq [rLit ("process"), .opt (rLit ("es"))])

/-- `/what would need to change/i` -/
def reWhatWouldNeedToChange : JsPattern := rxPlain (rLit ("what would need to change"))

/-- `/let me (?:tell you|share)/i` -/
def reLetMeTell : JsPattern := rxPlain (rSeq [rLit ("let me "),
  .alt (rLit ("tell you")) (rLit ("share"))])

/-- `/story/i` -/
def reStory : JsPattern := rxPlain (rLit ("story"))

/-- `/example/i` -/
def reExample : JsPattern := rxPlain (rLit ("example"))

/-- `/I'?m reminded of/i` -/
def reRemindedOf : JsPattern := rxPlain (rSeq [rLit ("i"), .opt (rLit ("'")),
  rLit ("m reminded of")])

/-- `/consider (?:the case|how)/i` -/
def reConsiderTheCase : JsPattern := rxPlain (rSeq [rLit ("consider "),
  .alt (rLit ("the case")) (rLit ("how"))])

/-- `/\bwill definitely\b/i` -/
def reWillDefinitely : JsPattern := rxWb (rLit ("will definitely"))

/-- `/\bwill certainly\b/i` -/
def reWillCertainly : JsPattern := rxWb (rLit ("will certainly"))

/-- `/\bguaranteed\b/i` -/
def reGuaranteed : JsPattern := rxWb (rLit ("guaranteed"))

/-- `/\bwill always\b/i` -/
def reWillAlways : JsPattern := rxWb (rLit ("will always"))

/-- `/\bno doubt\b/i` -/
def reNoDoubt : JsPattern := rxWb (rLit ("no doubt"))

/-- `/\b100%\b/` (the only pattern without the `i` flag; it has no cased
character, so matching on the lower-cased text is equivalent). -/
def re100Percent : JsPattern := rxWb (rLit ("100%"))

/-- `/\bobviously wrong\b/i` -/
def reObviouslyWrong : JsPattern := rxWb (rLit ("obviously wrong"))

/-- `/\bterrible idea\b/i` -/
def reTerribleIdea : JsPattern := rxWb (rLit ("terrible idea"))

/-- `/\bthat'?s (?:dumb|idiotic)\b/i` -/
def reThatsDumb : JsPattern := rxWb (rSeq [rLit ("that"), .opt (rLit ("'")),
  rLit ("s "), .alt (rLit ("dumb")) (rLit ("idiotic"))])

/-- `/\byou'?re wrong\b/i` -/
def reYoureWrong : JsPattern := rxWb (rSeq [rLit ("you"), .opt (rLit ("'")),
  rLit ("re wrong")])

/-- `/\bjust focus on execution\b/i` -/
def reJustFocusOnExecution : JsPattern := rxWb (rLit ("just focus on execution"))

/-- `/\bhere'?s a \d+[- ]step plan\b/i` -/
def reStepPlan : JsPattern := rxWb (rSeq [rLit ("here"), .opt (rLit ("'")),
  rLit ("s a "), .plusCls digitChar, .cls dashSpace, rLit ("step plan")])

/-- `/\bbest practices say\b/i` -/
def reBestPracticesSay : JsPattern := rxWb (rLit ("best practices say"))

/-- `/\bindustry standard\b/i` -/
def reIndustryStandard : JsPattern := rxWb (rLit ("industry standard"))

/-- Negative lookbehind `(?<!not that[^.]*)` at index `i`: true iff some
occurrence of `not that` followed only by non-dot characters ends exactly
at `i`. -/
def lookbehindNotThat (low : List Char) (i : Nat) : Bool :=
  (List.range (i + 1)).any (fun j =>
    decide (j + 8 ≤ i) && ("not that".data.isPrefixOf (low.drop j))
      && (((low.drop (j + 8)).take (i - (j + 8))).all (fun c => c != '.')))

/-- Negative lookahead `(?![^.]*rational)` at index `s`: true iff
`rational` is reachable from `s` across non-dot characters only. -/
def lookaheadRational (low : List Char) (s : Nat) : Bool :=
  (List.range (low.length + 1)).any (fun m =>
    decide (s ≤ m) && (((low.drop s).take (m - s)).all (fun c => c != '.'))
      && ("rational".data.isPrefixOf (low.drop m)))

/-- `/(?<!not that[^.]*)\bstupid\b(?![^.]*rational)/i`, the first
`dismissive` pattern, with its lookaround assertions handled directly. -/
def dismissiveStupid (text : String) : Option String :=
  let orig := text.data
  let low := orig.map Char.toLower
  ((List.range (orig.length + 1)).findSome? (fun i =>
    if ("stupid".data.isPrefixOf (low.drop i))
        && boundaryAt low i && boundaryAt low (i + 6)
        && !lookbehindNotThat low i && !lookaheadRational low (i + 6)
    then some i else none)).map (fun i => ⟨(orig.drop i).take 6⟩)

/-- `POSITIVE_PATTERNS.frameworkReference` -/
def POSITIVE_PATTERNS_frameworkReference : List (String → Option String) :=
  [jsMatch reJobsToBeDone, jsMatch reJtbd, jsMatch reDisruption, jsMatch reDisruptive,
   jsMatch reSustaining, jsMatch reCppPhrase, jsMatch reCpp, jsMatch reResourceDependence]

/-- `POSITIVE_PATTERNS.jtbdQuestion` -/
def POSITIVE_PATTERNS_jtbdQuestion : List (String → Option String) :=
  [jsMatch reWhatJob, jsMatch reHiring, jsMatch reFunctionalEmotionalSocial,
   jsMatch reCircumstance, jsMatch reWhatAreTheyFiring]

/-- `POSITIVE_PATTERNS.humility` -/
def POSITIVE_PATTERNS_humility : List (String → Option String) :=
  [jsMatch reTheoryPredicts, jsMatch reSeenThisPattern, jsMatch reHelpMeUnderstand,
   jsMatch reTheQuestionIs, jsMatch reAppropriateUncertainty, jsMatch reMightBeDifferent,
   jsMatch reDependsOn]

/-- `POSITIVE_PATTERNS.caseStudy` -/
def POSITIVE_PATTERNS_caseStudy : List (String → Option String) :=
  [jsMatch reMiniMills, jsMatch reSteel, jsMatch reDiskDrive, jsMatch reMilkshake,
   jsMatch reHonda, jsMatch reIntel, jsMatch reMicroprocessor]

/-- `POSITIVE_PATTERNS.constraints` -/
def POSITIVE_PATTERNS_constraints : List (String → Option String) :=
  [jsMatch reResourceProvider, jsMatch reBusinessModel, jsMatch rePriorities,
   jsMatch reProcesses, jsMatch reWhatWouldNeedToChange]

/-- `POSITIVE_PATTERNS.story` -/
def POSITIVE_PATTERNS_story : List (String → Option String) :=
  [jsMatch reLetMeTell, jsMatch reStory, jsMatch reExample, jsMatch reRemindedOf,
   jsMatch reConsiderTheCase]

/-- `NEGATIVE_PATTERNS.overconfidence` -/
def NEGATIVE_PATTERNS_overconfidence : List (String → Option String) :=
  [jsMatch reWillDefinitely, jsMatch reWillCertainly, jsMatch reGuaranteed,
   jsMatch reWillAlways, jsMatch reNoDoubt, jsMatch re100Percent]

/-- `NEGATIVE_PATTERNS.dismissive` -/
def NEGATIVE_PATTERNS_dismissive : List (String → Option String) :=
  [dismissiveStupid, jsMatch reObviouslyWrong, jsMatch reTerribleIdea,
   jsMatch reThatsDumb, jsMatch reYoureWrong]

/-- `NEGATIVE_PATTERNS.generic` -/
def NEGATIVE_PATTERNS_generic : List (String → Option String) :=
  [jsMatch reJustFocusOnExecution, jsMatch reStepPlan, jsMatch reBestPracticesSay,
   jsMatch reIndustryStandard]

/-! ## Fidelity scoring (src/validation/fidelity-check.ts) -/

/-- `empathyPattern = /not that[^.]*stupid[^.]*rational/i` -/
def empathyPattern : JsPattern := rxPlain (rSeq [rLit ("not that"), .starCls nonDotChar,
  rLit ("stupid"), .starCls nonDotChar, rLit ("rational")])

/-- `validationPattern = /dismissing[^.]*stupid/i` -/
def validationPattern : JsPattern := rxPlain (rSeq [rLit ("dismissing"),
  .starCls nonDotChar, rLit ("stupid")])

/-- `isChristensenStupidContext` from src/validation/fidelity-check.ts. -/
def isChristensenStupidContext (text : String) : Bool :=
  jsTest empathyPattern text || jsTest validationPattern text

/-- `findMatches(text, patterns, category?)`: one `match[0]` per matching
pattern, except that in the `"dismissive"` category a match whose excerpt
contains `stupid` is skipped when `isChristensenStupidContext` holds. -/
def findMatches (text : String) (patterns : List (String → Option String))
    (category : Option String) : List String :=
  patterns.filterMap (fun p =>
    match p text with
    | none => none
    | some m =>
      if (category == some ("dismissive")) && jsIncludes (jsLower m) ("stupid") then
        if isChristensenStupidContext text then none else some m
      else some m)

/-- One `{ found, matches }` entry of the `breakdown` / `antiPatterns`
objects; the source initializes `found: false` and then sets
`found = matches.length > 0`. -/
structure MarkerResult where
  found : Bool
  matches' : List String
deriving DecidableEq

/-- Build a `MarkerResult` from its match list (net effect of the
`found` assignment loop). -/
def markerOf (ms : List String) : MarkerResult :=
  { found := decide (0 < ms.length), matches' := ms }

/-- The `breakdown` object of `FidelityScore`. -/
structure FidelityBreakdown where
  frameworkReference : MarkerResult
  jtbdQuestion : MarkerResult
  humility : MarkerResult
  caseStudy : MarkerResult
  constraints : MarkerResult
  story : MarkerResult
deriving DecidableEq

/-- The `antiPatterns` object of `FidelityScore`. -/
structure FidelityAntiPatterns where
  overconfidence : MarkerResult
  dismissive : MarkerResult
  generic : MarkerResult
deriving DecidableEq

/-- The `FidelityScore` interface. -/
structure FidelityScore where
  overall : Int
  breakdown : FidelityBreakdown
  antiPatterns : FidelityAntiPatterns
  mustIncludeScore : Nat
  shouldIncludeScore : Nat
  antiPatternPenalty : Int
  passed : Bool
deriving DecidableEq

/-- `calculateFidelityScore` from src/validation/fidelity-check.ts. -/
def calculateFidelityScore (output : String) : FidelityScore :=
  let breakdown : FidelityBreakdown := {
    frameworkReference := markerOf (findMatches output POSITIVE_PATTERNS_frameworkReference none),
    jtbdQuestion := markerOf (findMatches output POSITIVE_PATTERNS_jtbdQuestion none),
    humility := markerOf (findMatches output POSITIVE_PATTERNS_humility none),
    caseStudy := markerOf (findMatches output POSITIVE_PATTERNS_caseStudy none),
    constraints := markerOf (findMatches output POSITIVE_PATTERNS_constraints none),
    story := markerOf (findMatches output POSITIVE_PATTERNS_story none) }
  let antiPatterns : FidelityAntiPatterns := {
    overconfidence := markerOf (findMatches output NEGATIVE_PATTERNS_overconfidence (some ("overconfidence"))),
    dismissive := markerOf (findMatches output NEGATIVE_PATTERNS_dismissive (some ("dismissive"))),
    generic := markerOf (findMatches output NEGATIVE_PATTERNS_generic none) }
  let mustIncludeItems : List Bool := [
    breakdown.frameworkReference.found, breakdown.jtbdQuestion.found,
    breakdown.humility.found, breakdown.caseStudy.found, breakdown.constraints.found]
  let mustIncludeScore : Nat := (mustIncludeItems.filter id).length
  let shouldIncludeItems : List Bool := [
    breakdown.story.found,
    decide (1 < breakdown.frameworkReference.matches'.length),
    decide (1 < breakdown.humility.matches'.length),
    decide (0 < breakdown.jtbdQuestion.matches'.length) && breakdown.constraints.found]
  let shouldIncludeScore : Nat := (shouldIncludeItems.filter id).length
  let antiPatternPenalty : Int :=
    (if antiPatterns.overconfidence.found then 10 else 0) +
    (if antiPatterns.dismissive.found then 15 else 0) +
    (if antiPatterns.generic.found then 5 else 0)
  let rawScore : Int := (mustIncludeScore : Int) * 10 + (shouldIncludeScore : Int) * 10
  let overall : Int := max 0 (min 100 (rawScore - antiPatternPenalty))
  let passed : Bool := decide (4 ≤ mustIncludeScore)
    && !antiPatterns.dismissive.found && !antiPatterns.overconfidence.found
  { overall := overall, breakdown := breakdown, antiPatterns := antiPatterns,
    mustIncludeScore := mustIncludeScore, shouldIncludeScore := shouldIncludeScore,
    antiPatternPenalty := antiPatternPenalty, passed := passed }

/-- `checkFidelity` from src/validation/fidelity-check.ts. -/
def checkFidelity (output : String) : Bool :=
  (calculateFidelityScore output).passed

/-! ## Case-study tool (src/tools/case-study.ts) -/

/-- One entry of `CASE_STUDY_EXTENSIONS`. -/
structure CaseStudyExtension where
  keyTakeaways : List String
  commonMisapplications : List String
  questionsToAsk : List String

/-- `CASE_STUDY_EXTENSIONS`: note it has five entries — including
`milkshake`, which `CANONICAL_CASES` lacks. -/
def CASE_STUDY_EXTENSIONS : List (String × CaseStudyExtension) := [
  ("steel_minimills", {
    keyTakeaways := [
      "Asymmetric motivation is the key - incumbents are RELIEVED to cede low-margin segments",
      "The retreat looks rational at every step, but the trajectory leads to disaster",
      "Cost structure differences create permanently different incentives",
      "Quality improvement in the 'inferior' technology is the warning sign"],
    commonMisapplications := [
      "Assuming any low-cost competitor is disruptive (sustaining low-cost is different)",
      "Ignoring the improvement trajectory of the entrant",
      "Forgetting that mini-mills had fundamentally different cost structures, not just lower prices"],
    questionsToAsk := [
      "Does the entrant have a fundamentally different cost structure?",
      "Are incumbents relieved or threatened by losing this segment?",
      "Is the entrant improving along a trajectory toward mainstream needs?",
      "What's the next tier the entrant might target?"] }),
  ("disk_drives", {
    keyTakeaways := [
      "Existing customers can actively mislead you about future threats",
      "New value networks have different performance metrics entirely",
      "Being 'worse' on current metrics can mean being 'better' on future metrics",
      "The pattern repeated across 5 generations - it's predictable"],
    commonMisapplications := [
      "Assuming all new form factors are disruptive",
      "Ignoring that disruption requires a new value network, not just new technology",
      "Forgetting the role of enabled applications in driving adoption"],
    questionsToAsk := [
      "What new applications does this enable that weren't possible before?",
      "What performance dimensions matter in this new context?",
      "Are existing customers explicitly saying they don't want this?",
      "What value network would this create or serve?"] }),
  ("milkshake", {
    keyTakeaways := [
      "The job, not the customer, is the unit of analysis",
      "Same product can be hired for completely different jobs",
      "Circumstance dramatically changes the job to be done",
      "Competition is defined by the job, not the product category"],
    commonMisapplications := [
      "Treating all customer feedback as equivalent regardless of circumstance",
      "Segmenting by demographics instead of jobs",
      "Assuming competitors are other products in the same category"],
    questionsToAsk := [
      "What job is being done in THIS specific circumstance?",
      "What would the customer hire if your product didn't exist?",
      "Are there different jobs for different times/places/contexts?",
      "What are the functional, emotional, and social dimensions?"] }),
  ("honda_motorcycles", {
    keyTakeaways := [
      "Initial strategy hypotheses are often wrong",
      "Markets teach you your strategy if you're willing to learn",
      "Unexpected customer segments can be more valuable than target segments",
      "Creating a new category avoids head-to-head competition"],
    commonMisapplications := [
      "Using this to justify pivoting without market evidence",
      "Ignoring the discipline Honda had in their original approach",
      "Forgetting that Honda eventually did move upmarket successfully"],
    questionsToAsk := [
      "What unexpected demand are you seeing?",
      "Who is buying that you didn't expect?",
      "What are they using it for that you didn't anticipate?",
      "Are you willing to follow the market's teaching?"] }),
  ("intel_microprocessors", {
    keyTakeaways := [
      "Processes transfer; resources don't guarantee success",
      "Capability migration requires recognizing what you're actually good at",
      "The underlying skill matters more than the specific product",
      "Priorities must shift to enable the transition"],
    commonMisapplications := [
      "Assuming any adjacent market is accessible",
      "Focusing on resources without examining processes",
      "Ignoring the difficulty of priority shifts"],
    questionsToAsk := [
      "What processes have you developed that could transfer?",
      "What are you actually good at, underneath the current product?",
      "Would your priorities allow you to invest in this new direction?",
      "Is there a clear path from current capabilities to the new opportunity?"] })]

/-- The five values of the `caseName` enum of `caseStudySchema` — the
public input schema of the case-study tool. -/
def caseStudySchemaCaseNames : List String :=
  ["steel_minimills", "disk_drives", "milkshake", "honda_motorcycles",
   "intel_microprocessors"]

/-- The not-found message template of `getCaseStudyDetail`:
`` `Case study "${caseName}" not found.` ``. -/
def caseNotFoundMessage (caseName : String) : String :=
  "Case study \"" ++ caseName ++ "\" not found."

/-- Join a mapped bullet list: `xs.map((s) => `- ${s}`).join("\n")`. -/
def bulletJoin (xs : List String) : String :=
  String.intercalate ("\n") (xs.map (fun s => "- " ++ s))

/-- The found-case template literal of `getCaseStudyDetail` (with its
final `.trim()`). -/
def renderCaseStudyDetail (caseStudy : CaseStudyPattern) (ext : CaseStudyExtension) : String :=
  jsTrim ("\n# " ++ caseStudy.name
    ++ "\n\n## Pattern\n**" ++ caseStudy.pattern
    ++ "**\n\n## The Story\n" ++ caseStudy.story
    ++ "\n\n## Signals That Match This Pattern\n" ++ bulletJoin caseStudy.signals
    ++ "\n\n## Key Takeaways\n" ++ bulletJoin ext.keyTakeaways
    ++ "\n\n## Common Misapplications\n" ++ bulletJoin ext.commonMisapplications
    ++ "\n\n## Questions to Ask\n" ++ bulletJoin ext.questionsToAsk
    ++ "\n\n## Lesson for Today\n" ++ caseStudy.lessonsForToday
    ++ "\n")

/-- `getCaseStudyDetail` from src/tools/case-study.ts.  An unknown
`caseName` takes the early-return branch and produces the not-found
message as an ordinary string result.  (If a case existed in
`CANONICAL_CASES` but not in `CASE_STUDY_EXTENSIONS`, the JS code would
crash dereferencing `undefined`; that unreachable-for-this-data branch is
modelled as `none`.) -/
def getCaseStudyDetail (caseName : String) : Option String :=
  let caseStudy := (CANONICAL_CASES.find? (fun e => e.1 == caseName)).map (fun e => e.2)
  let extension := (CASE_STUDY_EXTENSIONS.find? (fun e => e.1 == caseName)).map (fun e => e.2)
  match caseStudy with
  | none => some (caseNotFoundMessage caseName)
  | some cs => extension.map (fun ext => renderCaseStudyDetail cs ext)

/-! ## Spec-side definitions

These definitions transcribe the SPEC's wording (not the source) for the
claims that compare the two; each is used only to state whether the code
refines the spec sentence it renders. -/

/-- Modelled from the spec's words (§4.2 SignalMatcher, claim C2):
"normalize both strings (case-fold, trim), then the pair is considered a
match if the first 20 characters of either normalized string occur as a
substring of the other normalized string."  Note the `trim` step, which
the source does not perform. -/
def specNormalizedPairMatch (observation descriptor : String) : Bool :=
  let u := jsTrim (jsLower observation)
  let c := jsTrim (jsLower descriptor)
  jsIncludes c (jsSlice20 u) || jsIncludes u (jsSlice20 c)

/-- The pair-match test of claim C2 amended: case-fold only (no trim),
first 20 characters of either folded string occurring in the other. -/
def amendedPairMatch (observation descriptor : String) : Bool :=
  jsIncludes (jsLower observation) (jsSlice20 (jsLower descriptor)) ||
  jsIncludes (jsLower descriptor) (jsSlice20 (jsLower observation))

/-- Modelled from the spec's words (§4.2, claim C3): "Count distinct
descriptors matched per record (a descriptor counts at most once even if
multiple observations match it)" — the number of descriptors of the
record that at least one observation matches. -/
def specDistinctDescriptorCount (signals : List String) (caseSignals : List String) : Nat :=
  (caseSignals.filter (fun c => signals.any (fun u => signalTestMatch (jsLower u) c))).length

/-- The sub-list of references carrying a given tier, in their original
order; used to state the stable tier ordering of `matchToCaseStudies`. -/
def tierFilter (c : ConfidenceLevel) (l : List CaseStudyReference) : List CaseStudyReference :=
  l.filter (fun r => r.matchStrength == c)

/-! ## Regex engine lemmas -/

theorem exists_of_findSome {α β : Type} {f : α → Option β} {l : List α} {b : β}
    (h : l.findSome? f = some b) : ∃ a, a ∈ l ∧ f a = some b := by
  induction l with
  | nil => simp [List.findSome?] at h
  | cons x xs ih =>
    rw [List.findSome?_cons] at h
    cases hf : f x with
    | none =>
      rw [hf] at h; simp at h
      rcases ih h with ⟨a, ha, hfa⟩
      exact ⟨a, List.mem_cons_of_mem _ ha, hfa⟩
    | some c =>
      rw [hf] at h; simp at h
      exact ⟨x, List.mem_cons_self x xs, by rw [hf, h]⟩

theorem mem_descRange {k n : Nat} : k ∈ descRange n ↔ k ≤ n := by
  induction n with
  | zero => simp [descRange]
  | succ n ih =>
    simp only [descRange, List.mem_cons, ih]
    omega

theorem mem_dropLast_descRange {k n : Nat} (h : k ∈ (descRange n).dropLast) :
    k ≤ n ∧ k ≠ 0 := by
  induction n with
  | zero => simp [descRange] at h
  | succ n ih =>
    have hne : descRange n ≠ [] := by cases n <;> simp [descRange]
    rw [descRange] at h
    rcases hd : descRange n with _ | ⟨m, t⟩
    · exact absurd hd hne
    · rw [hd] at h
      rcases List.mem_cons.mp h with rfl | h2
      · exact ⟨Nat.le_refl _, by omega⟩
      · rw [← hd] at h2
        rcases ih h2 with ⟨h3, h4⟩
        exact ⟨Nat.le_succ_of_le h3, h4⟩

theorem lang_of_mem_amatch : ∀ (r : Reg) (w : List Char) (k : Nat),
    k ∈ amatch r w → Lang r (w.take k) := by
  intro r
  induction r with
  | eps =>
    intro w k h
    simp [amatch] at h
    subst h
    exact Lang.eps
  | lit cs =>
    intro w k h
    rw [amatch] at h
    split at h
    · next hpre =>
      simp at h
      subst h
      have hp : cs <+: w := List.isPrefixOf_iff_prefix.mp hpre
      rw [← List.prefix_iff_eq_take.mp hp]
      exact Lang.lit cs
    · simp at h
  | cls p =>
    intro w k h
    cases w with
    | nil => simp [amatch] at h
    | cons c t =>
      rw [amatch] at h
      split at h
      · next hc =>
        simp at h
        subst h
        exact Lang.cls hc
      · simp at h
  | seq a b iha ihb =>
    intro w k h
    rw [amatch] at h
    rcases List.mem_flatMap.mp h with ⟨ka, hka, hk⟩
    rcases List.mem_map.mp hk with ⟨kb, hkb, rfl⟩
    rw [List.take_add]
    exact Lang.seq (iha w ka hka) (ihb (w.drop ka) kb hkb)
  | alt a b iha ihb =>
    intro w k h
    rw [amatch] at h
    rcases List.mem_append.mp h with h1 | h2
    · exact Lang.altL (iha w k h1)
    · exact Lang.altR (ihb w k h2)
  | opt a iha =>
    intro w k h
    rw [amatch] at h
    rcases List.mem_append.mp h with h1 | h2
    · exact Lang.optSome (iha w k h1)
    · simp at h2
      subst h2
      exact Lang.optNone
  | starCls p =>
    intro w k h
    rw [amatch] at h
    have hk : k ≤ (w.takeWhile p).length := mem_descRange.mp h
    rcases (List.takeWhile_prefix p (l := w)) with ⟨r, hr⟩
    rw [← hr, List.take_append_of_le_length hk]
    exact Lang.starCls (fun c hc =>
      List.mem_takeWhile_imp (List.take_subset _ _ hc))
  | plusCls p =>
    intro w k h
    rw [amatch] at h
    split at h
    · simp at h
    · next n heq =>
      rcases mem_dropLast_descRange h with ⟨hk0, hkne⟩
      have hk : k ≤ (w.takeWhile p).length := by omega
      rcases (List.takeWhile_prefix p (l := w)) with ⟨r, hr⟩
      rw [← hr, List.take_append_of_le_length hk]
      refine Lang.plusCls ?_ (fun c hc =>
        List.mem_takeWhile_imp (List.take_subset _ _ hc))
      apply List.ne_nil_of_length_pos
      rw [List.length_take]
      omega

theorem lang_of_jsMatch {p : JsPattern} {t s : String} (h : jsMatch p t = some s) :
    Lang p.core (jsLower s).data := by
  rw [jsMatch] at h
  rcases Option.map_eq_some'.mp h with ⟨pr, hfind, hs⟩
  rcases exists_of_findSome hfind with ⟨i, _, hmap⟩
  rcases Option.map_eq_some'.mp hmap with ⟨k, htry, hpr⟩
  rw [tryAt] at htry
  split at htry
  · exact Option.noConfusion htry
  · have hk := List.mem_of_find?_eq_some htry
    have hlang := lang_of_mem_amatch _ _ _ hk
    subst hpr
    rw [← hs]
    show Lang p.core ((jsLower ⟨(t.data.drop i).take k⟩).data)
    simp only [jsLower, List.map_take, List.map_drop]
    exact hlang

theorem lang_lit_inv {cs u : List Char} (h : Lang (.lit cs) u) : u = cs := by
  cases h
  rfl

theorem lang_seq_inv {a b : Reg} {u : List Char} (h : Lang (.seq a b) u) :
    ∃ x y, u = x ++ y ∧ Lang a x ∧ Lang b y := by
  cases h with
  | seq hx hy => exact ⟨_, _, rfl, hx, hy⟩

/-- A pattern whose core is a plain literal can only ever report that
literal (up to the original casing of the text). -/
theorem low_of_jsMatch_lit {p : JsPattern} {cs : List Char} (hp : p.core = .lit cs)
    {t s : String} (h : jsMatch p t = some s) : (jsLower s).data = cs := by
  have hl := lang_of_jsMatch h
  rw [hp] at hl
  exact lang_lit_inv hl

/-- A pattern whose core starts with a literal can only report excerpts
extending that literal. -/
theorem low_prefix_of_jsMatch_seq_lit {p : JsPattern} {cs : List Char} {r : Reg}
    (hp : p.core = .seq (.lit cs) r) {t s : String} (h : jsMatch p t = some s) :
    ∃ v, (jsLower s).data = cs ++ v := by
  have hl := lang_of_jsMatch h
  rw [hp] at hl
  rcases lang_seq_inv hl with ⟨x, y, hu, hx, _⟩
  rw [lang_lit_inv hx] at hu
  exact ⟨y, hu⟩

/-! ## findMatches lemmas -/

theorem findMatches_not_dismissive (t : String) (ps : List (String → Option String))
    (cat : Option String) (hc : (cat == some ("dismissive")) = false) :
    findMatches t ps cat = ps.filterMap (fun p => p t) := by
  unfold findMatches
  have hfun : (fun (p : String → Option String) =>
      match p t with
      | none => none
      | some m =>
        if (cat == some ("dismissive")) && jsIncludes (jsLower m) ("stupid") then
          if isChristensenStupidContext t then none else some m
        else some m) = fun p => p t := by
    funext p
    cases hp : p t with
    | none => rfl
    | some m => simp [hc]
  rw [hfun]

theorem findMatches_none_cat (t : String) (ps : List (String → Option String)) :
    findMatches t ps none = ps.filterMap (fun p => p t) :=
  findMatches_not_dismissive t ps none rfl

theorem nodup_filterMap_apply {α β : Type} (t : α) (ps : List (α → Option β))
    (h : ps.Pairwise (fun p q => ∀ s s', p t = some s → q t = some s' → s ≠ s')) :
    (ps.filterMap (fun p => p t)).Nodup := by
  induction ps with
  | nil => simp
  | cons p ps ih =>
    rcases List.pairwise_cons.mp h with ⟨hp, hps⟩
    cases hpt : p t with
    | none => simpa [List.filterMap_cons, hpt] using ih hps
    | some s =>
      simp only [List.filterMap_cons, hpt]
      refine List.nodup_cons.mpr ⟨?_, ih hps⟩
      intro hmem
      rcases List.mem_filterMap.mp hmem with ⟨q, hq, hqt⟩
      exact hp q hq s s hpt hqt rfl

/-! ## Framework-pattern excerpt characterizations

Each of the eight `frameworkReference` regexes can only report excerpts
from its own (case-folded) language; the first two folded characters (or
the full folded word, for the two `disrupt…` literals) separate all
eight languages pairwise, so the excerpt list is duplicate-free. -/

theorem fwc_jobsToBeDone {t s : String} (h : jsMatch reJobsToBeDone t = some s) :
    (jsLower s).data.take 2 = ['j', 'o'] := by
  rcases low_prefix_of_jsMatch_seq_lit rfl h with ⟨v, hv⟩
  rw [hv]
  rfl

theorem fwc_jtbd {t s : String} (h : jsMatch reJtbd t = some s) :
    (jsLower s).data.take 2 = ['j', 't'] := by
  rw [low_of_jsMatch_lit rfl h]
  decide

theorem fwc_disruption {t s : String} (h : jsMatch reDisruption t = some s) :
    (jsLower s).data = "disruption".data :=
  low_of_jsMatch_lit rfl h

theorem fwc_disruptive {t s : String} (h : jsMatch reDisruptive t = some s) :
    (jsLower s).data = "disruptive".data :=
  low_of_jsMatch_lit rfl h

theorem fwc_sustaining {t s : String} (h : jsMatch reSustaining t = some s) :
    (jsLower s).data.take 2 = ['s', 'u'] := by
  rw [low_of_jsMatch_lit rfl h]
  decide

theorem fwc_cppPhrase {t s : String} (h : jsMatch reCppPhrase t = some s) :
    (jsLower s).data.take 2 = ['c', 'a'] := by
  rcases low_prefix_of_jsMatch_seq_lit rfl h with ⟨v, hv⟩
  rw [hv]
  rfl

theorem fwc_cpp {t s : String} (h : jsMatch reCpp t = some s) :
    (jsLower s).data.take 2 = ['c', 'p'] := by
  rw [low_of_jsMatch_lit rfl h]
  decide

theorem fwc_resourceDependence {t s : String} (h : jsMatch reResourceDependence t = some s) :
    (jsLower s).data.take 2 = ['r', 'e'] := by
  rw [low_of_jsMatch_lit rfl h]
  decide

/-- Two excerpts whose folded forms start differently are different. -/
theorem ne_of_low_take2 {s s' : String} {A B : List Char}
    (h1 : (jsLower s).data.take 2 = A) (h2 : (jsLower s').data.take 2 = B)
    (hAB : A ≠ B) : s ≠ s' := by
  intro heq
  subst heq
  exact hAB (h1 ▸ h2 ▸ rfl)

/-- Two excerpts with different folded forms are different. -/
theorem ne_of_low_eq {s s' : String} {A B : List Char}
    (h1 : (jsLower s).data = A) (h2 : (jsLower s').data = B)
    (hAB : A ≠ B) : s ≠ s' := by
  intro heq
  subst heq
  exact hAB (h1 ▸ h2 ▸ rfl)

/-- A distinct pair mixing a take-2 fact with a full-word fact. -/
theorem ne_of_low_take2_eq {s s' : String} {A : List Char} {B : List Char}
    (h1 : (jsLower s).data.take 2 = A) (h2 : (jsLower s').data = B)
    (hAB : B.take 2 ≠ A) : s ≠ s' := by
  intro heq
  subst heq
  rw [h2] at h1
  exact hAB h1

/-- The `frameworkReference` excerpt list is duplicate-free: the eight
patterns report excerpts from pairwise-disjoint languages. -/
theorem fw_matches_nodup (t : String) :
    (findMatches t POSITIVE_PATTERNS_frameworkReference none).Nodup := by
  rw [findMatches_none_cat]
  apply nodup_filterMap_apply
  unfold POSITIVE_PATTERNS_frameworkReference
  refine List.Pairwise.cons ?_ (List.Pairwise.cons ?_ (List.Pairwise.cons ?_
    (List.Pairwise.cons ?_ (List.Pairwise.cons ?_ (List.Pairwise.cons ?_
    (List.Pairwise.cons ?_ (List.Pairwise.cons
      (fun q hq => absurd hq (List.not_mem_nil q)) List.Pairwise.nil))))))) <;>
    intro q hq <;> simp only [List.mem_cons, List.not_mem_nil, or_false] at hq
  · rcases hq with rfl | rfl | rfl | rfl | rfl | rfl | rfl <;> intro s s' h1 h2
    · exact ne_of_low_take2 (fwc_jobsToBeDone h1) (fwc_jtbd h2) (by decide)
    · exact ne_of_low_take2_eq (fwc_jobsToBeDone h1) (fwc_disruption h2) (by decide)
    · exact ne_of_low_take2_eq (fwc_jobsToBeDone h1) (fwc_disruptive h2) (by decide)
    · exact ne_of_low_take2 (fwc_jobsToBeDone h1) (fwc_sustaining h2) (by decide)
    · exact ne_of_low_take2 (fwc_jobsToBeDone h1) (fwc_cppPhrase h2) (by decide)
    · exact ne_of_low_take2 (fwc_jobsToBeDone h1) (fwc_cpp h2) (by decide)
    · exact ne_of_low_take2 (fwc_jobsToBeDone h1) (fwc_resourceDependence h2) (by decide)
  · rcases hq with rfl | rfl | rfl | rfl | rfl | rfl <;> intro s s' h1 h2
    · exact ne_of_low_take2_eq (fwc_jtbd h1) (fwc_disruption h2) (by decide)
    · exact ne_of_low_take2_eq (fwc_jtbd h1) (fwc_disruptive h2) (by decide)
    · exact ne_of_low_take2 (fwc_jtbd h1) (fwc_sustaining h2) (by decide)
    · exact ne_of_low_take2 (fwc_jtbd h1) (fwc_cppPhrase h2) (by decide)
    · exact ne_of_low_take2 (fwc_jtbd h1) (fwc_cpp h2) (by decide)
    · exact ne_of_low_take2 (fwc_jtbd h1) (fwc_resourceDependence h2) (by decide)
  · rcases hq with rfl | rfl | rfl | rfl | rfl <;> intro s s' h1 h2
    · exact ne_of_low_eq (fwc_disruption h1) (fwc_disruptive h2) (by decide)
    · exact (ne_of_low_take2_eq (fwc_sustaining h2) (fwc_disruption h1) (by decide)).symm
    · exact (ne_of_low_take2_eq (fwc_cppPhrase h2) (fwc_disruption h1) (by decide)).symm
    · exact (ne_of_low_take2_eq (fwc_cpp h2) (fwc_disruption h1) (by decide)).symm
    · exact (ne_of_low_take2_eq (fwc_resourceDependence h2) (fwc_disruption h1) (by decide)).symm
  · rcases hq with rfl | rfl | rfl | rfl <;> intro s s' h1 h2
    · exact (ne_of_low_take2_eq (fwc_sustaining h2) (fwc_disruptive h1) (by decide)).symm
    · exact (ne_of_low_take2_eq (fwc_cppPhrase h2) (fwc_disruptive h1) (by decide)).symm
    · exact (ne_of_low_take2_eq (fwc_cpp h2) (fwc_disruptive h1) (by decide)).symm
    · exact (ne_of_low_take2_eq (fwc_resourceDependence h2) (fwc_disruptive h1) (by decide)).symm
  · rcases hq with rfl | rfl | rfl <;> intro s s' h1 h2
    · exact ne_of_low_take2 (fwc_sustaining h1) (fwc_cppPhrase h2) (by decide)
    · exact ne_of_low_take2 (fwc_sustaining h1) (fwc_cpp h2) (by decide)
    · exact ne_of_low_take2 (fwc_sustaining h1) (fwc_resourceDependence h2) (by decide)
  · rcases hq with rfl | rfl <;> intro s s' h1 h2
    · exact ne_of_low_take2 (fwc_cppPhrase h1) (fwc_cpp h2) (by decide)
    · exact ne_of_low_take2 (fwc_cppPhrase h1) (fwc_resourceDependence h2) (by decide)
  · rcases hq with rfl
    intro s s' h1 h2
    exact ne_of_low_take2 (fwc_cpp h1) (fwc_resourceDependence h2) (by decide)

/-! ## Claims about the fidelity scorer -/

/-- **C1.** For every input string `t`, `overall` of
`calculateFidelityScore t` equals
`clamp(requiredCount*10 + recommendedCount*10 - penalty, 0, 100)` — the
spec's `requiredCount`/`recommendedCount` are the `mustIncludeScore` and
`shouldIncludeScore` fields — where `penalty` is exactly 10 if the
"overconfident absolute claims" category triggered, plus 15 if
"dismissive language" triggered (after suppression), plus 5 if "generic
unsupported advice" triggered, additively with no cap before the final
clamp; in particular `0 ≤ overall ≤ 100`. -/
theorem overall_clamp_invariant (t : String) :
    ((calculateFidelityScore t).antiPatternPenalty
       = (if (calculateFidelityScore t).antiPatterns.overconfidence.found then (10 : Int) else 0)
         + (if (calculateFidelityScore t).antiPatterns.dismissive.found then (15 : Int) else 0)
         + (if (calculateFidelityScore t).antiPatterns.generic.found then (5 : Int) else 0))
    ∧ (calculateFidelityScore t).overall
       = max 0 (min 100
           (((calculateFidelityScore t).mustIncludeScore : Int) * 10
             + ((calculateFidelityScore t).shouldIncludeScore : Int) * 10
             - (calculateFidelityScore t).antiPatternPenalty))
    ∧ 0 ≤ (calculateFidelityScore t).overall
    ∧ (calculateFidelityScore t).overall ≤ 100 := by
  refine ⟨rfl, rfl, ?_, ?_⟩
  · exact le_max_left 0 _
  · exact max_le (by norm_num) (min_le_left _ _)

/-- **C4.** `passed` is true exactly when `requiredCount ≥ 4` and neither
the "overconfident absolute claims" nor the (suppression-filtered)
"dismissive language" category triggered; the "generic unsupported
advice" category does not appear in the condition, and `requiredCount <
4` forces `passed = false` regardless of penalty. -/
theorem passed_gating (t : String) :
    ((calculateFidelityScore t).passed = true
      ↔ (4 ≤ (calculateFidelityScore t).mustIncludeScore
          ∧ (calculateFidelityScore t).antiPatterns.overconfidence.found = false
          ∧ (calculateFidelityScore t).antiPatterns.dismissive.found = false))
    ∧ ((calculateFidelityScore t).mustIncludeScore < 4
        → (calculateFidelityScore t).passed = false) := by
  have h : (calculateFidelityScore t).passed
      = (decide (4 ≤ (calculateFidelityScore t).mustIncludeScore)
         && !(calculateFidelityScore t).antiPatterns.dismissive.found
         && !(calculateFidelityScore t).antiPatterns.overconfidence.found) := rfl
  constructor
  · rw [h]
    simp only [Bool.and_eq_true, decide_eq_true_eq, Bool.not_eq_true']
    tauto
  · intro hlt
    rw [h]
    simp only [Bool.and_eq_false_iff]
    left
    left
    simpa using Nat.not_le.mpr hlt

theorem passed_gating_witness : (calculateFidelityScore ("")).passed = false :=
  (passed_gating ("")).2 (by decide)

theorem exists_pair_of_one_lt_length_nodup {l : List String}
    (h : 1 < l.length) (hn : l.Nodup) : ∃ a ∈ l, ∃ b ∈ l, a ≠ b := by
  cases l with
  | nil => simp at h
  | cons a l' =>
    cases l' with
    | nil => simp at h
    | cons b l'' =>
      refine ⟨a, List.mem_cons_self a _, b, List.mem_cons_of_mem _ (List.mem_cons_self b _), ?_⟩
      intro hab
      rcases List.nodup_cons.mp hn with ⟨hnm, _⟩
      exact hnm (hab ▸ List.mem_cons_self b l'')

theorem one_lt_length_of_pair {l : List String} {a b : String}
    (ha : a ∈ l) (hb : b ∈ l) (hne : a ≠ b) : 1 < l.length := by
  cases l with
  | nil => simp at ha
  | cons x l' =>
    cases l' with
    | nil =>
      simp only [List.mem_singleton] at ha hb
      exact absurd (ha.trans hb.symm) hne
    | cons y l'' => simp [List.length_cons]

/-- **C8.** The four recommended booleans of `calculateFidelityScore` are
pure read-throughs of the already-computed category results: (a) the
story/example category's `found` flag; (b) the `frameworkReference`
category matched more than once — equivalently (its excerpt list being
duplicate-free) it holds two distinct excerpts; (c) the humility category
matched more than once; (d) the JTBD-question and constraints categories
both triggered; and `shouldIncludeScore` counts how many of the four
hold. -/
theorem recommended_derived (t : String) :
    ((calculateFidelityScore t).shouldIncludeScore
       = (([(calculateFidelityScore t).breakdown.story.found,
            decide (1 < (calculateFidelityScore t).breakdown.frameworkReference.matches'.length),
            decide (1 < (calculateFidelityScore t).breakdown.humility.matches'.length),
            decide (0 < (calculateFidelityScore t).breakdown.jtbdQuestion.matches'.length)
              && (calculateFidelityScore t).breakdown.constraints.found].filter id).length))
    ∧ (decide (1 < (calculateFidelityScore t).breakdown.frameworkReference.matches'.length) = true
        ↔ ∃ e₁ ∈ (calculateFidelityScore t).breakdown.frameworkReference.matches',
            ∃ e₂ ∈ (calculateFidelityScore t).breakdown.frameworkReference.matches', e₁ ≠ e₂)
    ∧ ((decide (0 < (calculateFidelityScore t).breakdown.jtbdQuestion.matches'.length)
          && (calculateFidelityScore t).breakdown.constraints.found) = true
        ↔ ((calculateFidelityScore t).breakdown.jtbdQuestion.found = true
            ∧ (calculateFidelityScore t).breakdown.constraints.found = true)) := by
  refine ⟨rfl, ?_, ?_⟩
  · have hfw : (calculateFidelityScore t).breakdown.frameworkReference.matches'
        = findMatches t POSITIVE_PATTERNS_frameworkReference none := rfl
    constructor
    · intro hlen
      exact exists_pair_of_one_lt_length_nodup (by simpa using hlen)
        (hfw ▸ fw_matches_nodup t)
    · rintro ⟨a, ha, b, hb, hne⟩
      simpa using one_lt_length_of_pair ha hb hne
  · have hj : (calculateFidelityScore t).breakdown.jtbdQuestion.found
        = decide (0 < (calculateFidelityScore t).breakdown.jtbdQuestion.matches'.length) := rfl
    rw [hj]
    simp [Bool.and_eq_true]

/-! ## Stable-sort lemmas for the signal matcher -/

theorem orderedInsert_skip {a : CaseStudyReference} {xs ys : List CaseStudyReference}
    (h : ∀ b ∈ xs, ¬ refLE a b) :
    List.orderedInsert refLE a (xs ++ ys) = xs ++ List.orderedInsert refLE a ys := by
  induction xs with
  | nil => rfl
  | cons x xs ih =>
    simp only [List.cons_append, List.orderedInsert]
    rw [if_neg (h x (List.mem_cons_self x xs))]
    rw [List.append_eq, ih (fun b hb => h b (List.mem_cons_of_mem x hb))]

theorem orderedInsert_front {a : CaseStudyReference} {zs : List CaseStudyReference}
    (h : ∀ b ∈ zs, refLE a b) :
    List.orderedInsert refLE a zs = a :: zs := by
  cases zs with
  | nil => rfl
  | cons z t =>
    simp only [List.orderedInsert]
    rw [if_pos (h z (List.mem_cons_self z t))]

theorem tierFilter_strength {c : ConfidenceLevel} {l : List CaseStudyReference}
    {b : CaseStudyReference} (h : b ∈ tierFilter c l) : b.matchStrength = c := by
  rcases List.mem_filter.mp h with ⟨_, hb⟩
  exact eq_of_beq hb

/-- Insertion sort on the tier preorder, applied to a list without
`uncertain` entries, is exactly the stable three-bucket arrangement. -/
theorem insertionSort_tiers (l : List CaseStudyReference)
    (h : ∀ r ∈ l, r.matchStrength ≠ ConfidenceLevel.uncertain) :
    l.insertionSort refLE
      = tierFilter .high l ++ tierFilter .medium l ++ tierFilter .low l := by
  induction l with
  | nil => rfl
  | cons a l ih =>
    have hl := fun r hr => h r (List.mem_cons_of_mem a hr)
    have ha := h a (List.mem_cons_self a l)
    rw [show List.insertionSort refLE (a :: l)
        = List.orderedInsert refLE a (List.insertionSort refLE l) from rfl]
    rw [ih hl]
    rcases hs : a.matchStrength with _ | _ | _ | _
    case high =>
      rw [orderedInsert_front (fun b _ => by simp [refLE, strengthOrder, hs])]
      simp [tierFilter, List.filter_cons, hs]
    case medium =>
      rw [List.append_assoc]
      rw [orderedInsert_skip (fun b hb => by
        have hbs := tierFilter_strength hb
        simp [refLE, strengthOrder, hs, hbs])]
      rw [orderedInsert_front (fun b hb => by
        rcases List.mem_append.mp hb with hb | hb <;>
          have hbs := tierFilter_strength hb <;>
          simp [refLE, strengthOrder, hs, hbs])]
      simp [tierFilter, List.filter_cons, hs]
    case low =>
      rw [orderedInsert_skip (fun b hb => by
        rcases List.mem_append.mp hb with hb | hb <;>
          have hbs := tierFilter_strength hb <;>
          simp [refLE, strengthOrder, hs, hbs])]
      rw [orderedInsert_front (fun b hb => by
        have hbs := tierFilter_strength hb
        simp [refLE, strengthOrder, hs, hbs])]
      simp [tierFilter, List.filter_cons, hs]
    case uncertain => exact absurd hs ha

theorem matchStrengthFor_ne_uncertain (n : Nat) :
    matchStrengthFor n ≠ ConfidenceLevel.uncertain := by
  unfold matchStrengthFor
  split
  · simp
  · split <;> simp

theorem unsorted_not_uncertain (signals : List String) :
    ∀ r ∈ unsortedMatches signals, r.matchStrength ≠ ConfidenceLevel.uncertain := by
  intro r hr
  simp only [unsortedMatches] at hr
  rcases List.mem_filterMap.mp hr with ⟨e, _, he⟩
  split at he
  · cases he
    exact matchStrengthFor_ne_uncertain _
  · exact Option.noConfusion he

/-! ## Claims about the signal matcher -/

/-- **C6.** `matchToCaseStudies` assigns tier `high` to a surviving
record exactly when its match count is at least 3, `medium` exactly when
it is 2, and `low` exactly when it is 1 (surviving records have count ≥
1); and the output is the stable three-bucket arrangement: all `high`
entries, then all `medium`, then all `low`, each bucket in the library's
declaration order. -/
theorem rank_tier_ordering (signals : List String) :
    (matchToCaseStudies signals
       = tierFilter .high (unsortedMatches signals)
         ++ tierFilter .medium (unsortedMatches signals)
         ++ tierFilter .low (unsortedMatches signals))
    ∧ (∀ n : Nat, 0 < n →
        ((matchStrengthFor n = ConfidenceLevel.high ↔ 3 ≤ n)
          ∧ (matchStrengthFor n = ConfidenceLevel.medium ↔ n = 2)
          ∧ (matchStrengthFor n = ConfidenceLevel.low ↔ n = 1))) := by
  constructor
  · exact insertionSort_tiers _ (unsorted_not_uncertain signals)
  · intro n hn
    refine ⟨?_, ?_, ?_⟩ <;> unfold matchStrengthFor <;> split_ifs with h3 h2 <;>
      simp_all <;> omega

theorem rank_tier_ordering_witness :
    (matchToCaseStudies [] = tierFilter .high (unsortedMatches [])
        ++ tierFilter .medium (unsortedMatches []) ++ tierFilter .low (unsortedMatches []))
    ∧ (matchStrengthFor 2 = ConfidenceLevel.medium ↔ 2 = 2) :=
  ⟨(rank_tier_ordering []).1, ((rank_tier_ordering []).2 2 (by decide)).2.1⟩

/-- **C7.** `matchToCaseStudies []` is `[]`, and every emitted reference
comes from a library record whose match count is at least 1 — records
with zero matches are elided entirely rather than emitted with a "none"
tier. -/
theorem rank_elides_zero_matches :
    matchToCaseStudies [] = []
    ∧ ∀ (signals : List String), ∀ r ∈ matchToCaseStudies signals,
        ∃ e ∈ CANONICAL_CASES, r.name = e.2.name
          ∧ 1 ≤ (matchedSignalsFor signals e.2.signals).length := by
  constructor
  · rfl
  · intro signals r hr
    have hmem : r ∈ unsortedMatches signals :=
      (List.perm_insertionSort refLE (unsortedMatches signals)).subset hr
    simp only [unsortedMatches] at hmem
    rcases List.mem_filterMap.mp hmem with ⟨e, he, heq⟩
    split at heq
    · next hpos =>
      cases heq
      exact ⟨e, he, rfl, hpos⟩
    · exact Option.noConfusion heq

theorem rank_elides_zero_matches_witness :
    ∃ e ∈ CANONICAL_CASES,
      ({ name := "Steel Mini-Mills",
         pattern := "Low-end disruption with asymmetric motivation",
         relevance := "Matches 1 signals: Incumbent has high fixed-cost structure",
         matchStrength := ConfidenceLevel.low } : CaseStudyReference).name = e.2.name
      ∧ 1 ≤ (matchedSignalsFor (["Incumbent has high fixed-cost structure"]) e.2.signals).length :=
  rank_elides_zero_matches.2 (["Incumbent has high fixed-cost structure"]) _ (by decide)

/-- **C2 (counterexample).** The claim's normalization includes a trim
step that the source does not perform: for the observation
`" incumbent has high"` (leading space) and the steel descriptor
`"Incumbent has high fixed-cost structure"`, the spec-worded test
matches but the code's test does not — and `matchToCaseStudies` reports
no match at all for that observation. -/
theorem pair_match_trim_cex :
    specNormalizedPairMatch (" incumbent has high") ("Incumbent has high fixed-cost structure") = true
    ∧ signalTestMatch (jsLower (" incumbent has high")) ("Incumbent has high fixed-cost structure") = false
    ∧ (∃ e ∈ CANONICAL_CASES, ("Incumbent has high fixed-cost structure") ∈ e.2.signals)
    ∧ matchToCaseStudies ([" incumbent has high"]) = [] := by
  refine ⟨by decide, by decide, by decide, by decide⟩

/-- **C2 (amended).** A descriptor/observation pair counts as a match in
`matchToCaseStudies` exactly when, after case-folding both strings
(without trimming), the first 20 characters of either folded string occur
as a substring of the other; an observation survives the inner descriptor
loop iff some descriptor passes this test. -/
theorem pair_match_amended (userSignal caseSignal : String) (caseSignals : List String) :
    (signalTestMatch (jsLower userSignal) caseSignal = amendedPairMatch userSignal caseSignal)
    ∧ ((firstMatchingSignal (jsLower userSignal) caseSignals).isSome = true
        ↔ ∃ c ∈ caseSignals, amendedPairMatch userSignal c = true) := by
  constructor
  · rfl
  · simp only [firstMatchingSignal, List.find?_isSome]
    exact Iff.rfl

/-- **C3 (counterexample).** `matchCount` is not the number of distinct
matched descriptors: repeating the same observation twice yields
`matchCount = 2` (tier `medium`) for the steel record although only one
distinct descriptor is matched. -/
theorem match_count_cex :
    (matchedSignalsFor
        (["Incumbent has high fixed-cost structure", "Incumbent has high fixed-cost structure"])
        (["Incumbent has high fixed-cost structure",
          "Low-end segments are unattractive margin-wise",
          "Entrant has fundamentally different cost structure",
          "Entrant quality improves over time",
          "Incumbent 'rationally' cedes each tier"])).length = 2
    ∧ specDistinctDescriptorCount
        (["Incumbent has high fixed-cost structure", "Incumbent has high fixed-cost structure"])
        (["Incumbent has high fixed-cost structure",
          "Low-end segments are unattractive margin-wise",
          "Entrant has fundamentally different cost structure",
          "Entrant quality improves over time",
          "Incumbent 'rationally' cedes each tier"]) = 1
    ∧ (∃ e ∈ CANONICAL_CASES,
        e.2.signals = ["Incumbent has high fixed-cost structure",
          "Low-end segments are unattractive margin-wise",
          "Entrant has fundamentally different cost structure",
          "Entrant quality improves over time",
          "Incumbent 'rationally' cedes each tier"])
    ∧ (matchToCaseStudies
        (["Incumbent has high fixed-cost structure", "Incumbent has high fixed-cost structure"])).map
          (fun r => r.matchStrength) = [ConfidenceLevel.medium] := by
  refine ⟨by decide, by decide, by decide, by decide⟩

/-- **C3 (amended).** `matchCount` counts the observations that match at
least one descriptor of the record (each observation contributing at most
once, via the first descriptor it matches); several observations matching
the same descriptor each count. -/
theorem match_count_counts_observations (signals caseSignals : List String) :
    (matchedSignalsFor signals caseSignals).length
      = (signals.filter
          (fun u => caseSignals.any (fun c => signalTestMatch (jsLower u) c))).length := by
  induction signals with
  | nil => rfl
  | cons u us ih =>
    have hiff : (firstMatchingSignal (jsLower u) caseSignals).isSome
        = caseSignals.any (fun c => signalTestMatch (jsLower u) c) := by
      rw [Bool.eq_iff_iff]
      simp only [firstMatchingSignal, List.find?_isSome, List.any_eq_true]
    simp only [matchedSignalsFor, List.filterMap_cons, List.filter_cons] at *
    cases hfm : firstMatchingSignal (jsLower u) caseSignals with
    | none =>
      have hany : caseSignals.any (fun c => signalTestMatch (jsLower u) c) = false := by
        rw [← hiff, hfm]
        rfl
      rw [hany]
      simpa using ih
    | some m =>
      have hany : caseSignals.any (fun c => signalTestMatch (jsLower u) c) = true := by
        rw [← hiff, hfm]
        rfl
      rw [hany]
      simpa using ih

/-! ## Claims about the dismissive-language suppression -/

theorem filterMap_length_pos {α β : Type} (f : α → Option β) (l : List α) :
    0 < (l.filterMap f).length ↔ ∃ a ∈ l, (f a).isSome = true := by
  rw [List.length_pos, Ne, List.filterMap_eq_nil_iff]
  push_neg
  simp [Option.isSome_iff_ne_none]

theorem dismissive_entry_isSome (t : String) (p : String → Option String) :
    ((match p t with
      | none => none
      | some m =>
        if ((some ("dismissive") : Option String) == some ("dismissive"))
            && jsIncludes (jsLower m) ("stupid") then
          if isChristensenStupidContext t then none else some m
        else some m) : Option String).isSome = true
      ↔ ∃ m, p t = some m
          ∧ (jsIncludes (jsLower m) ("stupid") = true
              → isChristensenStupidContext t = false) := by
  cases hp : p t with
  | none => simp
  | some m =>
    have hbeq : ((some ("dismissive") : Option String) == some ("dismissive")) = true := by
      decide
    cases hinc : jsIncludes (jsLower m) ("stupid") <;>
      cases hctx : isChristensenStupidContext t <;> simp [hbeq, hinc, hctx]

/-- **C5 (counterexample).** The suppression rule does not void every
dismissive trigger when the exoneration phrase is present: in a text
containing both the `terrible idea` trigger and the exoneration phrase,
the category still triggers — the source only suppresses matches whose
excerpt contains `stupid`. -/
theorem dismissive_suppression_cex :
    jsMatch reTerribleIdea
        ("that is a terrible idea. it is not that managers are stupid, they are rational")
      = some ("terrible idea")
    ∧ (jsMatch reTerribleIdea) ∈ NEGATIVE_PATTERNS_dismissive
    ∧ isChristensenStupidContext
        ("that is a terrible idea. it is not that managers are stupid, they are rational")
      = true
    ∧ (calculateFidelityScore
        ("that is a terrible idea. it is not that managers are stupid, they are rational")).antiPatterns.dismissive.found
      = true := by
  refine ⟨by decide, ?_, by decide, by decide⟩
  unfold NEGATIVE_PATTERNS_dismissive
  exact List.mem_cons_of_mem _ (List.mem_cons_of_mem _ (List.mem_cons_self _ _))

/-- **C5 (amended).** The "dismissive language" category triggers exactly
when some dismissive trigger pattern matches with an excerpt that either
does not contain `stupid` or occurs in a text without the exoneration
phrase: suppression by the exoneration phrase applies only to
`stupid`-containing excerpts, and with the phrase absent every trigger
match makes the category trigger. -/
theorem dismissive_suppression_amended (t : String) :
    (calculateFidelityScore t).antiPatterns.dismissive.found = true
      ↔ ∃ p ∈ NEGATIVE_PATTERNS_dismissive, ∃ m, p t = some m
          ∧ (jsIncludes (jsLower m) ("stupid") = true
              → isChristensenStupidContext t = false) := by
  have hd : (calculateFidelityScore t).antiPatterns.dismissive.found
      = decide (0 < (findMatches t NEGATIVE_PATTERNS_dismissive (some ("dismissive"))).length) :=
    rfl
  rw [hd, decide_eq_true_eq, findMatches, filterMap_length_pos]
  constructor
  · rintro ⟨p, hp, hsome⟩
    exact ⟨p, hp, (dismissive_entry_isSome t p).mp hsome⟩
  · rintro ⟨p, hp, hm⟩
    exact ⟨p, hp, (dismissive_entry_isSome t p).mpr hm⟩

theorem dismissive_suppression_amended_witness :
    ∃ p ∈ NEGATIVE_PATTERNS_dismissive, ∃ m, p ("you are stupid") = some m
      ∧ (jsIncludes (jsLower m) ("stupid") = true
          → isChristensenStupidContext ("you are stupid") = false) :=
  (dismissive_suppression_amended ("you are stupid")).mp (by decide)

/-! ## Claims about case-study lookup -/

/-- **C9 (counterexample).** Looking up an id that is not in the library
does not fail fast with a configuration error: `getCaseStudyDetail`
returns the not-found message as an ordinary string result (the source
has no error class at all on this path). -/
theorem unknown_case_returns_string_cex :
    getCaseStudyDetail ("no_such_case") = some (caseNotFoundMessage ("no_such_case"))
    ∧ ("no_such_case") ∉ CANONICAL_CASES.map Prod.fst := by
  refine ⟨by decide, by decide⟩

set_option maxRecDepth 40000 in
/-- **C9 (amended).** Looking up a pattern id absent from
`CANONICAL_CASES` returns the string `Case study "<id>" not found.` as a
normal result — no error is signalled and nothing fails fast — while for
every id drawn from the library's own key enumeration the result is the
rendered detail, never the not-found message. -/
theorem unknown_case_lookup_amended :
    (∀ caseName : String,
        CANONICAL_CASES.find? (fun e => e.1 == caseName) = none
        → getCaseStudyDetail caseName = some (caseNotFoundMessage caseName))
    ∧ (∀ k ∈ CANONICAL_CASES.map Prod.fst,
        getCaseStudyDetail k ≠ some (caseNotFoundMessage k)) := by
  constructor
  · intro caseName hnone
    simp only [getCaseStudyDetail, hnone, Option.map_none']
  · intro k hk
    simp only [CANONICAL_CASES, List.map_cons, List.map_nil, List.mem_cons,
      List.not_mem_nil, or_false] at hk
    rcases hk with rfl | rfl | rfl | rfl <;> decide

theorem unknown_case_lookup_amended_witness :
    getCaseStudyDetail ("milkshake_story") = some (caseNotFoundMessage ("milkshake_story"))
    ∧ getCaseStudyDetail ("steel_minimills") ≠ some (caseNotFoundMessage ("steel_minimills")) :=
  ⟨unknown_case_lookup_amended.1 ("milkshake_story") (by decide),
   unknown_case_lookup_amended.2 ("steel_minimills") (by decide)⟩

/-- **C10.** `"milkshake"` is one of the five ids accepted by the
case-study input schema, yet the static library `CANONICAL_CASES` has
only the other four entries, so looking up the valid id `"milkshake"`
yields the not-found message string, and situation matching can only ever
rank the four library records. -/
theorem milkshake_gap :
    ("milkshake") ∈ caseStudySchemaCaseNames
    ∧ CANONICAL_CASES.map Prod.fst
        = ["steel_minimills", "disk_drives", "honda_motorcycles", "intel_microprocessors"]
    ∧ getCaseStudyDetail ("milkshake") = some ("Case study \"milkshake\" not found.")
    ∧ ∀ signals : List String,
        ((matchToCaseStudies signals).all
          (fun r => (["Steel Mini-Mills", "Disk Drive Generations",
            "Honda Motorcycles in America",
            "Intel's Pivot to Microprocessors"]).contains r.name)) = true := by
  refine ⟨by decide, by decide, by decide, ?_⟩
  intro signals
  rw [List.all_eq_true]
  intro r hr
  have hmem : r ∈ unsortedMatches signals :=
    (List.perm_insertionSort refLE (unsortedMatches signals)).subset hr
  simp only [unsortedMatches] at hmem
  rcases List.mem_filterMap.mp hmem with ⟨e, he, heq⟩
  split at heq
  · cases heq
    simp only [CANONICAL_CASES, List.mem_cons, List.not_mem_nil, or_false] at he
    rcases he with rfl | rfl | rfl | rfl <;> rfl
  · exact Option.noConfusion heq

end Christensen
